/-
Verification of the pymarsys authenticated transport layer
(`pymarsys/connections.py`, `pymarsys/emarsys.py`) against its
natural-language specification.

The Python code is shallowly embedded: Python dicts become association
lists, the JSON-decoded response body becomes the inductive `PyValue`,
randomness (`uuid.uuid4()`) and the clock (`datetime.datetime.utcnow()`)
become explicit inputs, and the network becomes an explicit oracle
function from the built request to an HTTP response.  Every definition
is translated from the source files named in its doc comment.
-/
import Mathlib

/-- A decoded JSON / Python value, as produced by `response.json()`.
Covers the value shapes the transport layer manipulates. -/
inductive PyValue where
  | none : PyValue
  | bool : Bool → PyValue
  | int : Int → PyValue
  | str : String → PyValue
  | list : List PyValue → PyValue
  | dict : List (String × PyValue) → PyValue

/-- Python truthiness (`bool(x)`) for the embedded values:
`None`, `False`, `0`, the empty string, `[]`, and the empty dict are
falsy. -/
def pyTruthy : PyValue → Bool
  | .none => false
  | .bool b => b
  | .int n => n != 0
  | .str s => !s.isEmpty
  | .list xs => !xs.isEmpty
  | .dict xs => !xs.isEmpty

/-- Python `x == 0` for an embedded value: `0 == 0` and `False == 0`
are `True`; comparison of any other shape with `0` is `False`. -/
def pyEqZero : PyValue → Bool
  | .int n => n == 0
  | .bool b => !b
  | _ => false

/-- Errors a transport call can surface.  `valueError` models the
Python `ValueError` (the configuration error for a bad HTTP method),
`apiCallError` models the pymarsys `ApiCallError` carrying the decoded
body, `keyError` models an uncaught `KeyError` crash, `typeError` an
uncaught `TypeError` from subscripting a non-dict. -/
inductive PyErr where
  | valueError : String → PyErr
  | apiCallError : PyValue → PyErr
  | keyError : String → PyErr
  | typeError : PyErr

/-- Lookup in an embedded Python dict (first binding wins; embedded
dicts built by `dictInsert` have unique keys). -/
def pyDictGet : List (String × PyValue) → String → Option PyValue
  | [], _ => Option.none
  | (k, v) :: rest, key => if k = key then some v else pyDictGet rest key

/-- Python subscript `v[key]`: a `KeyError` on a dict lacking the key,
a `TypeError` on a non-dict. -/
def pySubscript (v : PyValue) (key : String) : Except PyErr PyValue :=
  match v with
  | .dict entries =>
    match pyDictGet entries key with
    | some x => .ok x
    | Option.none => .error (.keyError key)
  | _ => .error .typeError

/-- String-valued Python dict (HTTP headers), kept as an ordered
association list with unique keys. -/
abbrev StrDict := List (String × String)

/-- Insertion into a Python dict: an existing key keeps its position
but gets the new value; a new key is appended. -/
def dictInsert : StrDict → String → String → StrDict
  | [], k, v => [(k, v)]
  | (k', v') :: rest, k, v =>
    if k' = k then (k, v) :: rest else (k', v') :: dictInsert rest k v

/-- Lookup in a `StrDict`. -/
def dictGet : StrDict → String → Option String
  | [], _ => Option.none
  | (k, v) :: rest, key => if k = key then some v else dictGet rest key

/-- Merge in the style of a double-splat dict literal: insert every
binding of `other` into `base`, later bindings overriding earlier
ones. -/
def dictMerge (base : StrDict) (other : StrDict) : StrDict :=
  other.foldl (fun d p => dictInsert d p.1 p.2) base

/-- Exactly `k` lowercase hexadecimal digits of `n`, big-endian
(the CPython format `%032x` for `k = 32`, `%08x` for `k = 8`, on
`n < 16 ^ k`). -/
def hexDigitChar (n : Nat) : Char :=
  if n < 10 then Char.ofNat (48 + n) else Char.ofNat (87 + n)

def hexFixed : Nat → Nat → List Char
  | 0, _ => []
  | k + 1, n => hexFixed k (n / 16) ++ [hexDigitChar (n % 16)]

/-- Exactly `k` decimal digits of `n`, big-endian (the CPython
zero-padded rendering `%02d` / `%04d` on `n < 10 ^ k`). -/
def decFixed : Nat → Nat → List Char
  | 0, _ => []
  | k + 1, n => decFixed k (n / 10) ++ [Char.ofNat (48 + n % 10)]

/-- Model of `uuid.uuid4().hex`: the 128-bit random value `r` drawn by `uuid4`,
rendered as 32 lowercase hex characters. The randomness is an explicit
input of the embedding. -/
def uuid4Hex (r : Nat) : String := String.mk (hexFixed 32 r)

/-- A UTC wall-clock instant as `datetime.datetime.utcnow()` yields it. -/
structure UtcTime where
  year : Nat
  month : Nat
  day : Nat
  hour : Nat
  minute : Nat
  second : Nat
deriving DecidableEq, Repr

/-- Model of `datetime.strftime` with format `%Y-%m-%dT%H:%M:%S+00:00`
on a `UtcTime` (field widths as CPython zero-pads them for in-range
datetimes). -/
def strftimeWsse (t : UtcTime) : String :=
  String.mk (decFixed 4 t.year) ++ "-" ++ String.mk (decFixed 2 t.month) ++ "-"
    ++ String.mk (decFixed 2 t.day) ++ "T" ++ String.mk (decFixed 2 t.hour) ++ ":"
    ++ String.mk (decFixed 2 t.minute) ++ ":" ++ String.mk (decFixed 2 t.second)
    ++ "+00:00"

/-- UTF-8 encoding of one character (`str.encode` acts codepoint-wise). -/
def utf8Char (c : Char) : List Nat :=
  let n := c.toNat
  if n < 128 then [n]
  else if n < 2048 then [192 + n / 64, 128 + n % 64]
  else if n < 65536 then [224 + n / 4096, 128 + n / 64 % 64, 128 + n % 64]
  else [240 + n / 262144, 128 + n / 4096 % 64, 128 + n / 64 % 64, 128 + n % 64]

/-- Model of `str.encode(s)`: the UTF-8 bytes of `s`. -/
def strEncode (s : String) : List Nat := s.data.flatMap utf8Char

/-! ### SHA-1 (`hashlib.sha1`), on lists of bytes, 32-bit words as `Nat % 2^32` -/

def w32 : Nat := 4294967296

/-- Left-rotation of a 32-bit word. -/
def rotl (s x : Nat) : Nat := (x * 2 ^ s + x / 2 ^ (32 - s)) % w32

/-- Exactly `k` big-endian bytes of `n`. -/
def natToBytesBE : Nat → Nat → List Nat
  | 0, _ => []
  | k + 1, n => natToBytesBE k (n / 256) ++ [n % 256]

/-- Merkle–Damgård padding: `0x80`, zeros to 56 mod 64, then the
64-bit big-endian bit length. -/
def sha1Pad (msg : List Nat) : List Nat :=
  msg ++ [128] ++ List.replicate ((119 - msg.length % 64) % 64) 0
    ++ natToBytesBE 8 (msg.length * 8)

/-- Split into 64-byte blocks. -/
def chunks64 (l : List Nat) : List (List Nat) :=
  if h : l = [] then [] else
    have : (List.drop 64 l).length < l.length := by
      have hl : 0 < l.length := List.length_pos.mpr h
      simp only [List.length_drop]
      omega
    l.take 64 :: chunks64 (l.drop 64)
termination_by l.length

/-- Big-endian 32-bit words from bytes. -/
def bytesToWords : List Nat → List Nat
  | a :: b :: c :: d :: rest => (((a * 256 + b) * 256 + c) * 256 + d) :: bytesToWords rest
  | _ => []

/-- SHA-1 round constant. -/
def sha1K (i : Nat) : Nat :=
  if i < 20 then 1518500249 else if i < 40 then 1859775393
  else if i < 60 then 2400959708 else 3395469782

/-- SHA-1 round boolean function. -/
def sha1F (i b c d : Nat) : Nat :=
  if i < 20 then (b &&& c) ||| ((b ^^^ (w32 - 1)) &&& d)
  else if i < 40 then b ^^^ c ^^^ d
  else if i < 60 then (b &&& c) ||| (b &&& d) ||| (c &&& d)
  else b ^^^ c ^^^ d

/-- One SHA-1 round on state `(a, b, c, d, e)`. -/
def sha1Round (ws : Array Nat) (st : Nat × Nat × Nat × Nat × Nat) (i : Nat) :
    Nat × Nat × Nat × Nat × Nat :=
  let (a, b, c, d, e) := st
  ((rotl 5 a + sha1F i b c d + e + sha1K i + ws.getD i 0) % w32, a, rotl 30 b, c, d)

/-- Process one 64-byte block: expand 16 words to 80, run 80 rounds,
add into the running hash. -/
def sha1Block (hs : Nat × Nat × Nat × Nat × Nat) (block : List Nat) :
    Nat × Nat × Nat × Nat × Nat :=
  let ws := (List.range 64).foldl
    (fun a j => a.push
      (rotl 1 ((a.getD (j + 13) 0) ^^^ (a.getD (j + 8) 0) ^^^ (a.getD (j + 2) 0) ^^^ (a.getD j 0))))
    (bytesToWords block).toArray
  let (h0, h1, h2, h3, h4) := hs
  let (a, b, c, d, e) := (List.range 80).foldl (sha1Round ws) (h0, h1, h2, h3, h4)
  ((h0 + a) % w32, (h1 + b) % w32, (h2 + c) % w32, (h3 + d) % w32, (h4 + e) % w32)

/-- The five 32-bit state words of SHA-1 over a byte string. -/
def sha1Words (msg : List Nat) : Nat × Nat × Nat × Nat × Nat :=
  (chunks64 (sha1Pad msg)).foldl sha1Block
    (1732584193, 4023233417, 2562383102, 271733878, 3285377520)

/-- Model of `hashlib.sha1(msg).hexdigest()`: 40 lowercase hex characters. -/
def sha1Hexdigest (msg : List Nat) : String :=
  String.mk (hexFixed 8 (sha1Words msg).1
    ++ hexFixed 8 (sha1Words msg).2.1 ++ hexFixed 8 (sha1Words msg).2.2.1
    ++ hexFixed 8 (sha1Words msg).2.2.2.1 ++ hexFixed 8 (sha1Words msg).2.2.2.2)

/-! ### Base64 (`base64.b64encode`) -/

/-- The base64 alphabet character for a 6-bit value. -/
def b64Char (n : Nat) : Char :=
  if n < 26 then Char.ofNat (65 + n)
  else if n < 52 then Char.ofNat (97 + (n - 26))
  else if n < 62 then Char.ofNat (48 + (n - 52))
  else if n = 62 then Char.ofNat 43 else Char.ofNat 47

/-- Standard base64 encoding of a byte list, with `=` padding. -/
def b64Encode : List Nat → List Char
  | [] => []
  | [a] => [b64Char (a / 4), b64Char (a % 4 * 16), Char.ofNat 61, Char.ofNat 61]
  | [a, b] => [b64Char (a / 4), b64Char (a % 4 * 16 + b / 16), b64Char (b % 16 * 4), Char.ofNat 61]
  | a :: b :: c :: rest =>
    b64Char (a / 4) :: b64Char (a % 4 * 16 + b / 16)
      :: b64Char (b % 16 * 4 + c / 64) :: b64Char (c % 64) :: b64Encode rest

/-- Model of `bytes.decode(base64.b64encode(str.encode(s)))` for a string `s`. -/
def b64OfString (s : String) : String := String.mk (b64Encode (strEncode s))

/-! ### JSON serialization (`json.dumps` with default separators) -/

/-- JSON string literal with the escapes relevant on the transport
domain (backslash and double quote; payload keys/values are plain
printable text). -/
def jsonStr (s : String) : String :=
  "\"" ++ String.mk (s.data.flatMap
    (fun c => if c = '\\' then ['\\', '\\']
      else if c = '\"' then ['\\', '\"'] else [c])) ++ "\""

mutual

/-- Model of `json.dumps(v)` with the CPython default separators
(comma-space between items, colon-space after keys). -/
def pyToJson : PyValue → String
  | .none => "null"
  | .bool true => "true"
  | .bool false => "false"
  | .int n => toString n
  | .str s => jsonStr s
  | .list xs => "[" ++ pyToJsonList xs ++ "]"
  | .dict xs => "\x7b" ++ pyToJsonEntries xs ++ "\x7d"

def pyToJsonList : List PyValue → String
  | [] => ""
  | [x] => pyToJson x
  | x :: y :: rest => pyToJson x ++ ", " ++ pyToJsonList (y :: rest)

def pyToJsonEntries : List (String × PyValue) → String
  | [] => ""
  | [(k, v)] => jsonStr k ++ ": " ++ pyToJson v
  | (k, v) :: e :: rest => jsonStr k ++ ": " ++ pyToJson v ++ ", " ++ pyToJsonEntries (e :: rest)

end

/-! ### The connection layer (`pymarsys/connections.py`, `pymarsys/emarsys.py`) -/

/-- The constant `EMARSYS_URI` from `connections.py`. -/
def EMARSYS_URI : String := "https://api.emarsys.net/"

/-- The constant `VALID_HTTP_METHODS` from `emarsys.py`. -/
def VALID_HTTP_METHODS : List String := ["GET", "POST", "PUT", "DELETE"]

/-- The credential / base-URI state shared by `BaseConnection`,
`SyncConnection`, `AsyncConnection` and `Emarsys`. -/
structure BaseConnection where
  username : String
  secret : String
  uri : String

/-- Model of `s.startswith` applied to the slash separator. -/
def startsWithSlash (s : String) : Bool :=
  match s.data with
  | [] => false
  | c :: _ => c = '/'

/-- Model of `s.endswith` applied to the slash separator. -/
def endsWithSlash (s : String) : Bool :=
  match s.data.getLast? with
  | some c => c = '/'
  | _ => false

/-- Model of `os.path.join(a, b)` on POSIX: `b` replaces everything
when it starts with a slash; otherwise it is appended with a separator
unless `a` is empty (`not path`) or already ends in a slash. -/
def osPathJoin (a b : String) : String :=
  if startsWithSlash b then b
  else if a.data.isEmpty || endsWithSlash a then a ++ b
  else a ++ "/" ++ b

/-- Model of `BaseConnection.build_authentication_variables`
(`connections.py` lines 34-48; `Emarsys.__build_authentication_variables`
in `emarsys.py` lines 62-76 is character-for-character the same):
`nonce = uuid.uuid4().hex`, `created = utcnow().strftime(...)`,
`sha1 = hashlib.sha1(str.encode(nonce + created + secret)).hexdigest()`,
`password_digest = bytes.decode(base64.b64encode(str.encode(sha1)))`.
The `uuid4` randomness `r` and the clock reading `now` are explicit
inputs of the embedding. -/
def build_authentication_variables (conn : BaseConnection) (r : Nat) (now : UtcTime) :
    String × String × String :=
  let nonce := uuid4Hex r
  let created := strftimeWsse now
  let sha1 := sha1Hexdigest (strEncode (nonce ++ created ++ conn.secret))
  let password_digest := b64OfString sha1
  (nonce, created, password_digest)

/-- The `X-WSSE` header value that the comma-join builds in `build_headers`
(`connections.py` lines 59-67), as a function of the per-call
randomness and clock reading. -/
def wsseHeaderValue (conn : BaseConnection) (r : Nat) (now : UtcTime) : String :=
  "UsernameToken Username=\"" ++ conn.username ++ "\","
    ++ "PasswordDigest=\"" ++ (build_authentication_variables conn r now).2.2 ++ "\","
    ++ "Nonce=\"" ++ (build_authentication_variables conn r now).1 ++ "\","
    ++ "Created=\"" ++ (build_authentication_variables conn r now).2.1 ++ "\""

/-- Model of `BaseConnection.build_headers` (`connections.py` lines 50-73):
`if not other_headers: other_headers = ...` (truthiness), then the
dict literal binding `X-WSSE` to the token and `Content-Type` to
`application/json`, splatting `other_headers` on top.
`other = Option.none` is the Python `None` default. -/
def build_headers (conn : BaseConnection) (r : Nat) (now : UtcTime)
    (other : Option StrDict) : StrDict :=
  let other_headers := match other with
    | Option.none => []
    | some d => if d.isEmpty then [] else d
  let base := dictInsert (dictInsert [] "X-WSSE" (wsseHeaderValue conn r now))
    "Content-Type" "application/json"
  dictMerge base other_headers

/-- A request as handed to the HTTP library (`requests.request` /
`ClientSession.request`): method, resolved URL, headers, and the
JSON-serialized body. -/
structure NetworkRequest where
  reqMethod : String
  url : String
  headers : StrDict
  body : String

/-- An HTTP response as the embedding network oracle returns it:
transport status code plus the already-JSON-decoded body. -/
structure HttpResponse where
  statusCode : Nat
  body : PyValue

/-- Model of `requests.Response.ok`: `False` exactly when `raise_for_status`
would raise, i.e. when `400 <= status_code < 600`. -/
def responseOk (c : Nat) : Bool := !(400 ≤ c && c < 600)

/-- The request `SyncConnection.make_call` builds before dispatch
(`connections.py` lines 98-107): `if not payload` defaulting to the
empty dict,
`url = os.path.join(self.uri, endpoint)`,
`headers = self.build_headers(headers)`, body serialized as JSON
(`requests.request(..., json=payload)` delegates to `json.dumps`). -/
def syncBuildRequest (conn : BaseConnection) (r : Nat) (now : UtcTime)
    (reqMethod endpoint : String) (headers : Option StrDict) (payload : PyValue) :
    NetworkRequest :=
  let payload := if pyTruthy payload then payload else PyValue.dict []
  let url := osPathJoin conn.uri endpoint
  let headers := build_headers conn r now headers
  ⟨reqMethod, url, headers, pyToJson payload⟩

/-- The request `AsyncConnection.make_call` builds before dispatch
(`connections.py` lines 140-150): the same steps, the body serialized
by the explicit `json.dumps(payload)` handed to `data=`. -/
def asyncBuildRequest (conn : BaseConnection) (r : Nat) (now : UtcTime)
    (reqMethod endpoint : String) (headers : Option StrDict) (payload : PyValue) :
    NetworkRequest :=
  let payload := if pyTruthy payload then payload else PyValue.dict []
  let url := osPathJoin conn.uri endpoint
  let headers := build_headers conn r now headers
  ⟨reqMethod, url, headers, pyToJson payload⟩

/-- Model of `SyncConnection.make_call` (`connections.py` lines 83-115): builds
the request, dispatches it (`net` is the network oracle; the returned
list is the trace of dispatched requests), then classifies on
`response.ok` alone: `ok` returns `response.json()`, otherwise
`ApiCallError(response.json())` is raised.  The decoded body field
`replyCode` is never consulted. -/
def syncMakeCall (conn : BaseConnection) (r : Nat) (now : UtcTime)
    (net : NetworkRequest → HttpResponse)
    (reqMethod endpoint : String) (headers : Option StrDict) (payload : PyValue) :
    Except PyErr PyValue × List NetworkRequest :=
  let req := syncBuildRequest conn r now reqMethod endpoint headers payload
  let response := net req
  (if responseOk response.statusCode then .ok response.body
   else .error (.apiCallError response.body), [req])

/-- Model of `AsyncConnection.make_call` (`connections.py` lines 125-159): same
construction, then classifies alone on the subscript of the decoded
body at `replyCode` comparing equal to `0`: an
unguarded subscript (a `KeyError` crash when the key is absent, a
`TypeError` on a non-dict body), success iff the value compares equal
to `0`, otherwise `ApiCallError(response)`.  The transport status code
is never consulted. -/
def asyncMakeCall (conn : BaseConnection) (r : Nat) (now : UtcTime)
    (net : NetworkRequest → HttpResponse)
    (reqMethod endpoint : String) (headers : Option StrDict) (payload : PyValue) :
    Except PyErr PyValue × List NetworkRequest :=
  let req := asyncBuildRequest conn r now reqMethod endpoint headers payload
  let response := net req
  (match pySubscript response.body "replyCode" with
   | .error e => .error e
   | .ok v => if pyEqZero v then .ok response.body
     else .error (.apiCallError response.body), [req])

/-- The `ValueError` message `emarsys.py` formats for a bad method. -/
def invalidMethodMsg (reqMethod : String) : String :=
  "\x27" ++ reqMethod ++ "\x27 is an invalid method. Valid methods are "
    ++ "(\x27GET\x27, \x27POST\x27, \x27PUT\x27, \x27DELETE\x27)."

/-- Model of `Emarsys.__make_sync_call` (`emarsys.py` lines 100-137): first
`if method not in VALID_HTTP_METHODS: raise ValueError(...)` — before
any network activity — then the same construction as
`SyncConnection.make_call` and classification on `response.ok`, the
error body wrapped in a dict under the `emarsys_response` key. -/
def emarsysMakeSyncCall (conn : BaseConnection) (r : Nat) (now : UtcTime)
    (net : NetworkRequest → HttpResponse)
    (endpoint reqMethod : String) (headers : Option StrDict) (payload : PyValue) :
    Except PyErr PyValue × List NetworkRequest :=
  if reqMethod ∉ VALID_HTTP_METHODS then
    (.error (.valueError (invalidMethodMsg reqMethod)), [])
  else
    let req := syncBuildRequest conn r now reqMethod endpoint headers payload
    let response := net req
    (if responseOk response.statusCode then .ok response.body
     else .error (.apiCallError (PyValue.dict [("emarsys_response", response.body)])), [req])

/-- Model of `Emarsys.__make_async_call` (`emarsys.py` lines 139-185): the same
method guard (the source even repeats it twice), then the
`AsyncConnection` construction and `replyCode` classification. -/
def emarsysMakeAsyncCall (conn : BaseConnection) (r : Nat) (now : UtcTime)
    (net : NetworkRequest → HttpResponse)
    (endpoint reqMethod : String) (headers : Option StrDict) (payload : PyValue) :
    Except PyErr PyValue × List NetworkRequest :=
  if reqMethod ∉ VALID_HTTP_METHODS then
    (.error (.valueError (invalidMethodMsg reqMethod)), [])
  else
    let req := asyncBuildRequest conn r now reqMethod endpoint headers payload
    let response := net req
    (match pySubscript response.body "replyCode" with
     | .error e => .error e
     | .ok v => if pyEqZero v then .ok response.body
       else .error (.apiCallError response.body), [req])

/-! ### Character-class predicates used to state the claims -/

/-- ASCII decimal digit. -/
def isDigitChar (c : Char) : Bool := 48 ≤ c.toNat && c.toNat ≤ 57

/-- Lowercase hexadecimal digit (the alphabet of `uuid4().hex` and
`sha1().hexdigest()`); such a string parses as a base-16 integer. -/
def isHexDigitChar (c : Char) : Bool :=
  (48 ≤ c.toNat && c.toNat ≤ 57) || (97 ≤ c.toNat && c.toNat ≤ 102)

/-- The shape `YYYY-MM-DDTHH:MM:SS+00:00`: four digits, dash, two
digits, dash, two digits, `T`, two digits, colon, two digits, colon,
two digits, then the literal fixed offset `+00:00`. -/
def isTimestamp25 (s : String) : Prop :=
  ∃ y mo d h mi se : List Char,
    s.data = y ++ '-' :: (mo ++ '-' :: (d ++ 'T' :: (h ++ ':' :: (mi ++ ':' ::
      (se ++ ['+', '0', '0', ':', '0', '0'])))))
    ∧ y.length = 4 ∧ mo.length = 2 ∧ d.length = 2 ∧ h.length = 2 ∧ mi.length = 2
    ∧ se.length = 2
    ∧ ∀ c, c ∈ y ++ mo ++ d ++ h ++ mi ++ se → isDigitChar c = true

/-! ### Supporting lemmas -/

theorem hexFixed_length (k n : Nat) : (hexFixed k n).length = k := by
  induction k generalizing n with
  | zero => rfl
  | succ k ih => simp [hexFixed, ih]

theorem decFixed_length (k n : Nat) : (decFixed k n).length = k := by
  induction k generalizing n with
  | zero => rfl
  | succ k ih => simp [decFixed, ih]

theorem hexDigitChar_isHex : ∀ m < 16, isHexDigitChar (hexDigitChar m) = true := by decide

theorem hexFixed_mem_isHex (k n : Nat) : ∀ c ∈ hexFixed k n, isHexDigitChar c = true := by
  induction k generalizing n with
  | zero => simp [hexFixed]
  | succ k ih =>
    intro c hc
    rcases List.mem_append.mp hc with hc | hc
    · exact ih _ _ hc
    · have : c = hexDigitChar (n % 16) := by simpa using hc
      subst this
      exact hexDigitChar_isHex _ (Nat.mod_lt _ (by norm_num))

theorem decDigitChar_isDigit : ∀ m < 10, isDigitChar (Char.ofNat (48 + m)) = true := by decide

theorem decFixed_mem_isDigit (k n : Nat) : ∀ c ∈ decFixed k n, isDigitChar c = true := by
  induction k generalizing n with
  | zero => simp [decFixed]
  | succ k ih =>
    intro c hc
    rcases List.mem_append.mp hc with hc | hc
    · exact ih _ _ hc
    · have : c = Char.ofNat (48 + n % 10) := by simpa using hc
      subst this
      exact decDigitChar_isDigit _ (Nat.mod_lt _ (by norm_num))

theorem isHexDigitChar_lt128 (c : Char) (h : isHexDigitChar c = true) : c.toNat < 128 := by
  simp [isHexDigitChar] at h
  omega

theorem utf8Char_ascii (c : Char) (h : c.toNat < 128) : utf8Char c = [c.toNat] := by
  simp [utf8Char, h]

theorem flatMap_utf8_length (l : List Char) (h : ∀ c ∈ l, c.toNat < 128) :
    (l.flatMap utf8Char).length = l.length := by
  induction l with
  | nil => rfl
  | cons c rest ih =>
    have hc : utf8Char c = [c.toNat] := utf8Char_ascii c (h c (by simp))
    simp [hc, ih (fun x hx => h x (by simp [hx]))]

theorem strEncode_length_ascii (s : String) (h : ∀ c ∈ s.data, c.toNat < 128) :
    (strEncode s).length = s.length := flatMap_utf8_length s.data h

theorem b64Encode_length : ∀ l : List Nat, (b64Encode l).length = 4 * ((l.length + 2) / 3)
  | [] => by simp [b64Encode]
  | [_] => by simp [b64Encode]
  | [_, _] => by simp [b64Encode]
  | _ :: _ :: _ :: rest => by
    have ih := b64Encode_length rest
    simp [b64Encode, ih]
    omega

theorem sha1Hexdigest_length (m : List Nat) : (sha1Hexdigest m).length = 40 := by
  simp [sha1Hexdigest, String.length, hexFixed_length]

theorem sha1Hexdigest_mem_isHex (m : List Nat) :
    ∀ c ∈ (sha1Hexdigest m).data, isHexDigitChar c = true := by
  intro c hc
  simp only [sha1Hexdigest] at hc
  rcases List.mem_append.mp hc with hc | hc
  · rcases List.mem_append.mp hc with hc | hc
    · rcases List.mem_append.mp hc with hc | hc
      · rcases List.mem_append.mp hc with hc | hc
        · exact hexFixed_mem_isHex _ _ _ hc
        · exact hexFixed_mem_isHex _ _ _ hc
      · exact hexFixed_mem_isHex _ _ _ hc
    · exact hexFixed_mem_isHex _ _ _ hc
  · exact hexFixed_mem_isHex _ _ _ hc

theorem b64OfString_length_of_40 (s : String) (h40 : s.length = 40)
    (hascii : ∀ c ∈ s.data, c.toNat < 128) : (b64OfString s).length = 56 := by
  have he : (strEncode s).length = 40 := by rw [strEncode_length_ascii s hascii, h40]
  simp [b64OfString, String.length, b64Encode_length, he]

theorem sha1Digest56 (m : List Nat) : (b64OfString (sha1Hexdigest m)).length = 56 :=
  b64OfString_length_of_40 _ (sha1Hexdigest_length m)
    (fun c hc => isHexDigitChar_lt128 c (sha1Hexdigest_mem_isHex m c hc))

theorem hexDigitChar_inj : ∀ a < 16, ∀ b < 16, hexDigitChar a = hexDigitChar b → a = b := by
  decide

theorem hexFixed_inj (k : Nat) :
    ∀ m n, m < 16 ^ k → n < 16 ^ k → hexFixed k m = hexFixed k n → m = n := by
  induction k with
  | zero =>
    intro m n hm hn _
    omega
  | succ k ih =>
    intro m n hm hn h
    simp only [hexFixed] at h
    have hlen : (hexFixed k (m / 16)).length = (hexFixed k (n / 16)).length := by
      simp [hexFixed_length]
    obtain ⟨h1, h2⟩ := List.append_inj h hlen
    have hmod : m % 16 = n % 16 := by
      have hx : hexDigitChar (m % 16) = hexDigitChar (n % 16) := by simpa using h2
      exact hexDigitChar_inj _ (Nat.mod_lt _ (by norm_num)) _ (Nat.mod_lt _ (by norm_num)) hx
    have hq : m / 16 = n / 16 := by
      have hpow : 16 ^ (k + 1) = 16 ^ k * 16 := by ring
      exact ih _ _ (Nat.div_lt_of_lt_mul (by omega)) (Nat.div_lt_of_lt_mul (by omega)) h1
    omega

theorem uuid4Hex_inj (r1 r2 : Nat) (h1 : r1 < 2 ^ 128) (h2 : r2 < 2 ^ 128)
    (h : uuid4Hex r1 = uuid4Hex r2) : r1 = r2 := by
  have hp : (16 : Nat) ^ 32 = 2 ^ 128 := by norm_num
  have hd : hexFixed 32 r1 = hexFixed 32 r2 := congrArg String.data h
  exact hexFixed_inj 32 r1 r2 (by omega) (by omega) hd

theorem dictGet_dictInsert_self (d : StrDict) (k v : String) :
    dictGet (dictInsert d k v) k = some v := by
  induction d with
  | nil => simp [dictInsert, dictGet]
  | cons p rest ih =>
    obtain ⟨k', v'⟩ := p
    by_cases h : k' = k <;> simp [dictInsert, dictGet, h, ih]

theorem dictGet_dictInsert_ne (d : StrDict) (k v k' : String) (h : k' ≠ k) :
    dictGet (dictInsert d k v) k' = dictGet d k' := by
  have h' : ¬k = k' := fun he => h he.symm
  induction d with
  | nil => simp [dictInsert, dictGet, h']
  | cons p rest ih =>
    obtain ⟨k'', v''⟩ := p
    by_cases hk : k'' = k
    · subst hk
      simp [dictInsert, dictGet, h']
    · simp [dictInsert, dictGet, hk, ih]

theorem dictGet_dictMerge_not_mem (base other : StrDict) (k : String)
    (h : ∀ p ∈ other, p.1 ≠ k) :
    dictGet (dictMerge base other) k = dictGet base k := by
  induction other generalizing base with
  | nil => rfl
  | cons q rest ih =>
    have hstep : dictMerge base (q :: rest) = dictMerge (dictInsert base q.1 q.2) rest := rfl
    rw [hstep, ih _ (fun p hp => h p (by simp [hp])),
      dictGet_dictInsert_ne _ _ _ _ (fun he => h q (by simp) he.symm)]

theorem dictGet_dictMerge_mem (base other : StrDict)
    (hnd : (other.map Prod.fst).Nodup) (p : String × String) (hp : p ∈ other) :
    dictGet (dictMerge base other) p.1 = some p.2 := by
  induction other generalizing base with
  | nil => cases hp
  | cons q rest ih =>
    have hstep : dictMerge base (q :: rest) = dictMerge (dictInsert base q.1 q.2) rest := rfl
    rw [hstep]
    rcases List.mem_cons.mp hp with hq | hq
    · subst hq
      have hnot : ∀ x ∈ rest, x.1 ≠ p.1 := by
        intro x hx he
        have : p.1 ∈ rest.map Prod.fst := he ▸ List.mem_map_of_mem Prod.fst hx
        exact (List.nodup_cons.mp hnd).1 this
      rw [dictGet_dictMerge_not_mem _ _ _ hnot, dictGet_dictInsert_self]
    · exact ih _ (List.nodup_cons.mp hnd).2 hq

theorem mem_keys_dictInsert (d : StrDict) (k v a : String)
    (h : a ∈ (dictInsert d k v).map Prod.fst) : a ∈ d.map Prod.fst ∨ a = k := by
  induction d with
  | nil => simpa [dictInsert] using h
  | cons p rest ih =>
    obtain ⟨k', v'⟩ := p
    by_cases hk : k' = k
    · simp only [dictInsert, if_pos hk, List.map_cons, List.mem_cons] at h
      rcases h with h | h
      · exact Or.inr h
      · exact Or.inl (List.mem_cons_of_mem _ h)
    · simp only [dictInsert, if_neg hk, List.map_cons, List.mem_cons] at h ⊢
      rcases h with h | h
      · exact Or.inl (Or.inl h)
      · rcases ih h with h | h
        · exact Or.inl (Or.inr h)
        · exact Or.inr h

theorem keysNodup_dictInsert (d : StrDict) (k v : String)
    (h : (d.map Prod.fst).Nodup) : ((dictInsert d k v).map Prod.fst).Nodup := by
  induction d with
  | nil => simp [dictInsert]
  | cons p rest ih =>
    obtain ⟨k', v'⟩ := p
    simp only [List.map_cons, List.nodup_cons] at h
    by_cases hk : k' = k
    · subst hk
      simpa [dictInsert, List.nodup_cons] using h
    · simp only [dictInsert, if_neg hk, List.map_cons, List.nodup_cons]
      refine ⟨fun hmem => ?_, ih h.2⟩
      rcases mem_keys_dictInsert _ _ _ _ hmem with hm | hm
      · exact h.1 hm
      · exact hk hm

theorem keysNodup_dictMerge (base other : StrDict)
    (h : (base.map Prod.fst).Nodup) : ((dictMerge base other).map Prod.fst).Nodup := by
  induction other generalizing base with
  | nil => exact h
  | cons q rest ih => exact ih _ (keysNodup_dictInsert _ _ _ h)

theorem dictGet_mem_keys (d : StrDict) (k v : String) (h : dictGet d k = some v) :
    k ∈ d.map Prod.fst := by
  induction d with
  | nil => simp [dictGet] at h
  | cons p rest ih =>
    obtain ⟨k', v'⟩ := p
    by_cases hk : k' = k
    · simp [hk]
    · simp only [dictGet, if_neg hk] at h
      simp [ih h]

theorem count_keys_eq_one (d : StrDict) (k v : String)
    (hnd : (d.map Prod.fst).Nodup) (h : dictGet d k = some v) :
    (d.map Prod.fst).count k = 1 := by
  exact List.count_eq_one_of_mem hnd (dictGet_mem_keys d k v h)

theorem strftimeWsse_data (t : UtcTime) :
    (strftimeWsse t).data = decFixed 4 t.year ++ '-' :: (decFixed 2 t.month ++ '-' ::
      (decFixed 2 t.day ++ 'T' :: (decFixed 2 t.hour ++ ':' :: (decFixed 2 t.minute ++ ':' ::
      (decFixed 2 t.second ++ ['+', '0', '0', ':', '0', '0']))))) := by
  simp [strftimeWsse, String.data_append]

theorem strftimeWsse_length (t : UtcTime) : (strftimeWsse t).length = 25 := by
  have h : (strftimeWsse t).length = (strftimeWsse t).data.length := rfl
  rw [h, strftimeWsse_data]
  simp [decFixed_length]

theorem strftimeWsse_isTimestamp25 (t : UtcTime) : isTimestamp25 (strftimeWsse t) := by
  refine ⟨decFixed 4 t.year, decFixed 2 t.month, decFixed 2 t.day, decFixed 2 t.hour,
    decFixed 2 t.minute, decFixed 2 t.second, strftimeWsse_data t,
    decFixed_length 4 _, decFixed_length 2 _, decFixed_length 2 _, decFixed_length 2 _,
    decFixed_length 2 _, decFixed_length 2 _, ?_⟩
  intro c hc
  rcases List.mem_append.mp hc with hc | hc
  · rcases List.mem_append.mp hc with hc | hc
    · rcases List.mem_append.mp hc with hc | hc
      · rcases List.mem_append.mp hc with hc | hc
        · rcases List.mem_append.mp hc with hc | hc
          · exact decFixed_mem_isDigit _ _ _ hc
          · exact decFixed_mem_isDigit _ _ _ hc
        · exact decFixed_mem_isDigit _ _ _ hc
      · exact decFixed_mem_isDigit _ _ _ hc
    · exact decFixed_mem_isDigit _ _ _ hc
  · exact decFixed_mem_isDigit _ _ _ hc

theorem wsseHeaderValue_eq (conn : BaseConnection) (r : Nat) (now : UtcTime) :
    wsseHeaderValue conn r now
      = "UsernameToken Username=\"" ++ conn.username ++ "\",PasswordDigest=\""
        ++ (build_authentication_variables conn r now).2.2 ++ "\",Nonce=\""
        ++ (build_authentication_variables conn r now).1 ++ "\",Created=\""
        ++ (build_authentication_variables conn r now).2.1 ++ "\"" := by
  apply String.ext
  simp [wsseHeaderValue, String.data_append]

theorem uuid4Hex_length (r : Nat) : (uuid4Hex r).length = 32 := by
  simp [uuid4Hex, String.length, hexFixed_length]

/-! ### Concrete fixtures shared by the claim theorems -/

/-- A concrete connection used to instantiate claims. -/
def demoConn : BaseConnection := ⟨"squirrel@example.com", "secret123", EMARSYS_URI⟩

/-- A concrete `utcnow()` reading used to instantiate claims. -/
def demoTime : UtcTime := ⟨2026, 10, 12, 8, 30, 5⟩

/-! ### The claims -/

/-- C8: building a request with path `api/v2/contact/` against base URI
`https://api.emarsys.net/` resolves to exactly
`https://api.emarsys.net/api/v2/contact/`, trailing slash preserved. -/
theorem claim8_roundtrip_url :
    osPathJoin EMARSYS_URI "api/v2/contact/" = "https://api.emarsys.net/api/v2/contact/"
    ∧ (syncBuildRequest ⟨"user", "secret", EMARSYS_URI⟩ 0 ⟨2026, 1, 1, 0, 0, 0⟩ "POST"
        "api/v2/contact/" Option.none PyValue.none).url
      = "https://api.emarsys.net/api/v2/contact/" := by
  constructor <;> rfl

/-- C5: the claim that URL resolution never drops the scheme
and host of the base URI fails on the code: `os.path.join` discards the base entirely
when the endpoint starts with `/`, so resolving `/api/v2/contact/`
against `https://api.emarsys.net/` yields the scheme-less, host-less
string `/api/v2/contact/`. -/
theorem claim5_leading_slash_drops_host :
    osPathJoin EMARSYS_URI "/api/v2/contact/" = "/api/v2/contact/"
    ∧ (syncBuildRequest ⟨"user", "secret", EMARSYS_URI⟩ 0 ⟨2026, 1, 1, 0, 0, 0⟩ "GET"
        "/api/v2/contact/" Option.none PyValue.none).url = "/api/v2/contact/" := by
  constructor <;> rfl

/-- C3: the claim that a decoded body lacking `replyCode` yields a
TransportError fails on the code: `AsyncConnection.make_call` performs
the unguarded subscript of the response at `replyCode` and crashes with an
uncaught `KeyError` on such a body. -/
theorem claim3_missing_replyCode_crashes :
    (asyncMakeCall demoConn 0 demoTime
      (fun _ => ⟨200, PyValue.dict [("replyText", PyValue.str "Unauthorized")]⟩)
      "GET" "api/v2/settings" Option.none PyValue.none).1
      = .error (.keyError "replyCode") := rfl

/-- C10: both transports default the request body by truthiness
(`if not payload`), so every falsy payload — `None`, the empty dict,
the empty string, `0`, `[]` — is serialized as the empty structured
payload. -/
theorem claim10_falsy_payload (conn : BaseConnection) (r : Nat) (now : UtcTime)
    (m e : String) (h : Option StrDict) (p : PyValue) (hp : pyTruthy p = false) :
    (syncBuildRequest conn r now m e h p).body = "\x7b\x7d"
    ∧ (asyncBuildRequest conn r now m e h p).body = "\x7b\x7d"
    ∧ pyTruthy PyValue.none = false ∧ pyTruthy (PyValue.dict []) = false
    ∧ pyTruthy (PyValue.str "") = false ∧ pyTruthy (PyValue.int 0) = false
    ∧ pyTruthy (PyValue.list []) = false := by
  refine ⟨?_, ?_, rfl, rfl, rfl, rfl, rfl⟩ <;>
    simp [syncBuildRequest, asyncBuildRequest, hp, pyToJson, pyToJsonEntries]

/-- Witness for C10: a deliberately supplied falsy non-`None` payload
(the empty list) is serialized as the empty dict. -/
theorem claim10_falsy_payload_witness :
    pyTruthy (PyValue.list []) = false
    ∧ (syncBuildRequest demoConn 0 demoTime "POST" "api/v2/contact/" Option.none
        (PyValue.list [])).body = "\x7b\x7d" :=
  ⟨rfl, (claim10_falsy_payload demoConn 0 demoTime "POST" "api/v2/contact/" Option.none
    (PyValue.list []) rfl).1⟩

/-- C1 (counterexample): the dual success check does not hold.  With
transport status 200 and `replyCode = 1003`, `SyncConnection.make_call`
returns the body as a success instead of raising; with transport status
500 and `replyCode = 0`, `AsyncConnection.make_call` returns the body
as a success instead of raising. -/
theorem claim1_counterexample :
    (syncMakeCall demoConn 0 demoTime
      (fun _ => ⟨200, PyValue.dict [("replyCode", PyValue.int 1003),
        ("replyText", PyValue.str "Duplicate contact")]⟩)
      "POST" "api/v2/contact/" Option.none PyValue.none).1
      = .ok (PyValue.dict [("replyCode", PyValue.int 1003),
        ("replyText", PyValue.str "Duplicate contact")])
    ∧ (asyncMakeCall demoConn 0 demoTime
      (fun _ => ⟨500, PyValue.dict [("replyCode", PyValue.int 0)]⟩)
      "GET" "api/v2/settings" Option.none PyValue.none).1
      = .ok (PyValue.dict [("replyCode", PyValue.int 0)]) :=
  ⟨rfl, rfl⟩

/-- C1 (amended): each transport applies a single-sided check.
`SyncConnection.make_call` succeeds with the decoded body iff the
transport status is ok (`replyCode` ignored) and otherwise raises
`ApiCallError` with the decoded body; `AsyncConnection.make_call`
succeeds iff the decoded `replyCode` compares equal to `0` (transport
status ignored), raises `ApiCallError` with the decoded body on a
non-zero `replyCode`, and crashes with `KeyError` when the field is
absent. -/
theorem claim1_classification (conn : BaseConnection) (r : Nat) (now : UtcTime)
    (net : NetworkRequest → HttpResponse) (m e : String) (h : Option StrDict) (p : PyValue) :
    ((syncMakeCall conn r now net m e h p).1
        = .ok (net (syncBuildRequest conn r now m e h p)).body
      ↔ responseOk (net (syncBuildRequest conn r now m e h p)).statusCode = true)
    ∧ (responseOk (net (syncBuildRequest conn r now m e h p)).statusCode = false →
        (syncMakeCall conn r now net m e h p).1
          = .error (.apiCallError (net (syncBuildRequest conn r now m e h p)).body))
    ∧ (∀ v, pySubscript (net (asyncBuildRequest conn r now m e h p)).body "replyCode" = .ok v →
        ((asyncMakeCall conn r now net m e h p).1
            = .ok (net (asyncBuildRequest conn r now m e h p)).body
          ↔ pyEqZero v = true))
    ∧ (∀ v, pySubscript (net (asyncBuildRequest conn r now m e h p)).body "replyCode" = .ok v →
        pyEqZero v = false →
        (asyncMakeCall conn r now net m e h p).1
          = .error (.apiCallError (net (asyncBuildRequest conn r now m e h p)).body))
    ∧ (pySubscript (net (asyncBuildRequest conn r now m e h p)).body "replyCode"
          = .error (.keyError "replyCode") →
        (asyncMakeCall conn r now net m e h p).1 = .error (.keyError "replyCode")) := by
  refine ⟨?_, ?_, ?_, ?_, ?_⟩
  · by_cases hok : responseOk (net (syncBuildRequest conn r now m e h p)).statusCode
    · simp [syncMakeCall, hok]
    · simp [syncMakeCall, hok]
  · intro hok
    simp [syncMakeCall, hok]
  · intro v hv
    by_cases hz : pyEqZero v
    · simp [asyncMakeCall, hv, hz]
    · simp [asyncMakeCall, hv, hz]
  · intro v hv hz
    simp [asyncMakeCall, hv, hz]
  · intro hv
    simp [asyncMakeCall, hv]

/-- Witness for C1 (amended): a concrete call with status 200 and
`replyCode = 1` raises `ApiCallError` carrying the decoded body. -/
theorem claim1_classification_witness :
    (asyncMakeCall demoConn 0 demoTime
      (fun _ => ⟨200, PyValue.dict [("replyCode", PyValue.int 1)]⟩)
      "GET" "api/v2/settings" Option.none PyValue.none).1
      = .error (.apiCallError (PyValue.dict [("replyCode", PyValue.int 1)])) :=
  (claim1_classification demoConn 0 demoTime
    (fun _ => ⟨200, PyValue.dict [("replyCode", PyValue.int 1)]⟩)
    "GET" "api/v2/settings" Option.none PyValue.none).2.2.2.1 (PyValue.int 1) rfl rfl

/-- C2 (counterexample): the two transports are not interchangeable.
On the identical request and the identical response — status 200, body
`replyCode = 1003` — the blocking variant returns the body as a success
while the concurrent variant raises `ApiCallError`. -/
theorem claim2_counterexample :
    (syncMakeCall demoConn 0 demoTime
      (fun _ => ⟨200, PyValue.dict [("replyCode", PyValue.int 1003)]⟩)
      "GET" "api/v2/settings" Option.none PyValue.none).1
      = .ok (PyValue.dict [("replyCode", PyValue.int 1003)])
    ∧ (asyncMakeCall demoConn 0 demoTime
      (fun _ => ⟨200, PyValue.dict [("replyCode", PyValue.int 1003)]⟩)
      "GET" "api/v2/settings" Option.none PyValue.none).1
      = .error (.apiCallError (PyValue.dict [("replyCode", PyValue.int 1003)])) :=
  ⟨rfl, rfl⟩

/-- C2 (amended): both transports build the identical request (same
resolved URL, same headers, same serialized body) and raise the same
error shape (`ApiCallError` carrying the decoded body), and they agree
whenever the transport status and `replyCode` point the same way; but
their classification conditions differ (see the counterexample), so
full interchangeability fails. -/
theorem claim2_request_equality (conn : BaseConnection) (r : Nat) (now : UtcTime)
    (net : NetworkRequest → HttpResponse) (m e : String) (h : Option StrDict) (p : PyValue) :
    syncBuildRequest conn r now m e h p = asyncBuildRequest conn r now m e h p
    ∧ (syncMakeCall conn r now net m e h p).2 = (asyncMakeCall conn r now net m e h p).2
    ∧ (∀ v, responseOk (net (syncBuildRequest conn r now m e h p)).statusCode = true →
        pySubscript (net (syncBuildRequest conn r now m e h p)).body "replyCode" = .ok v →
        pyEqZero v = true →
        (syncMakeCall conn r now net m e h p).1
            = .ok (net (syncBuildRequest conn r now m e h p)).body
        ∧ (asyncMakeCall conn r now net m e h p).1
            = .ok (net (syncBuildRequest conn r now m e h p)).body)
    ∧ (∀ v, responseOk (net (syncBuildRequest conn r now m e h p)).statusCode = false →
        pySubscript (net (syncBuildRequest conn r now m e h p)).body "replyCode" = .ok v →
        pyEqZero v = false →
        (syncMakeCall conn r now net m e h p).1
            = .error (.apiCallError (net (syncBuildRequest conn r now m e h p)).body)
        ∧ (asyncMakeCall conn r now net m e h p).1
            = .error (.apiCallError (net (syncBuildRequest conn r now m e h p)).body)) := by
  have hreq : asyncBuildRequest conn r now m e h p = syncBuildRequest conn r now m e h p := rfl
  refine ⟨rfl, rfl, ?_, ?_⟩
  · intro v hok hv hz
    exact ⟨by simp [syncMakeCall, hok], by simp [asyncMakeCall, hreq, hv, hz]⟩
  · intro v hok hv hz
    exact ⟨by simp [syncMakeCall, hok], by simp [asyncMakeCall, hreq, hv, hz]⟩

/-- Witness for C2 (amended): on status 200 with `replyCode = 0` both
transports succeed with the same decoded body. -/
theorem claim2_request_equality_witness :
    (syncMakeCall demoConn 0 demoTime
      (fun _ => ⟨200, PyValue.dict [("replyCode", PyValue.int 0)]⟩)
      "GET" "api/v2/settings" Option.none PyValue.none).1
      = .ok (PyValue.dict [("replyCode", PyValue.int 0)])
    ∧ (asyncMakeCall demoConn 0 demoTime
      (fun _ => ⟨200, PyValue.dict [("replyCode", PyValue.int 0)]⟩)
      "GET" "api/v2/settings" Option.none PyValue.none).1
      = .ok (PyValue.dict [("replyCode", PyValue.int 0)]) :=
  (claim2_request_equality demoConn 0 demoTime
    (fun _ => ⟨200, PyValue.dict [("replyCode", PyValue.int 0)]⟩)
    "GET" "api/v2/settings" Option.none PyValue.none).2.2.1 (PyValue.int 0) rfl rfl rfl

/-- C4 (counterexample): the connection-layer transports perform no
method validation.  `SyncConnection.make_call` and
`AsyncConnection.make_call` invoked with the invalid method `PATCH`
each dispatch one network request (the trace is nonempty) and succeed
instead of failing with a configuration error. -/
theorem claim4_counterexample :
    (syncMakeCall demoConn 0 demoTime
      (fun _ => ⟨200, PyValue.dict [("replyCode", PyValue.int 0)]⟩)
      "PATCH" "api/v2/settings" Option.none PyValue.none).2.length = 1
    ∧ (syncMakeCall demoConn 0 demoTime
      (fun _ => ⟨200, PyValue.dict [("replyCode", PyValue.int 0)]⟩)
      "PATCH" "api/v2/settings" Option.none PyValue.none).1
      = .ok (PyValue.dict [("replyCode", PyValue.int 0)])
    ∧ (asyncMakeCall demoConn 0 demoTime
      (fun _ => ⟨200, PyValue.dict [("replyCode", PyValue.int 0)]⟩)
      "PATCH" "api/v2/settings" Option.none PyValue.none).2.length = 1 :=
  ⟨rfl, rfl, rfl⟩

/-- C4 (amended): only the call operations of the `Emarsys` client validate
the HTTP method: with a method outside `VALID_HTTP_METHODS` both fail
with `ValueError` and dispatch no network request, while the
`SyncConnection`/`AsyncConnection` transports always dispatch exactly
one request whatever the method string. -/
theorem claim4_method_validation (conn : BaseConnection) (r : Nat) (now : UtcTime)
    (net : NetworkRequest → HttpResponse) (e m : String) (h : Option StrDict) (p : PyValue)
    (hm : m ∉ VALID_HTTP_METHODS) :
    emarsysMakeSyncCall conn r now net e m h p
      = (.error (.valueError (invalidMethodMsg m)), [])
    ∧ emarsysMakeAsyncCall conn r now net e m h p
      = (.error (.valueError (invalidMethodMsg m)), [])
    ∧ (syncMakeCall conn r now net m e h p).2.length = 1
    ∧ (asyncMakeCall conn r now net m e h p).2.length = 1 := by
  refine ⟨?_, ?_, rfl, rfl⟩ <;> simp [emarsysMakeSyncCall, emarsysMakeAsyncCall, hm]

/-- Witness for C4 (amended): the concrete invalid method `PATCH` is
rejected by the `Emarsys` client with an empty network trace. -/
theorem claim4_method_validation_witness :
    "PATCH" ∉ VALID_HTTP_METHODS
    ∧ emarsysMakeSyncCall demoConn 0 demoTime (fun _ => ⟨200, PyValue.none⟩)
        "api/v2/settings" "PATCH" Option.none PyValue.none
      = (.error (.valueError (invalidMethodMsg "PATCH")), []) :=
  ⟨by decide, (claim4_method_validation demoConn 0 demoTime (fun _ => ⟨200, PyValue.none⟩)
    "api/v2/settings" "PATCH" Option.none PyValue.none (by decide)).1⟩

/-- C6: the outputs of the authenticator.  The nonce is a 32-character
string of lowercase hex digits (hence parses base-16); the timestamp is
25 characters in the shape `YYYY-MM-DDTHH:MM:SS+00:00`; the digest is
exactly `base64(hex(SHA-1(nonce ++ timestamp ++ secret)))` and is 56
characters long.  The hypotheses restrict the clock reading to the
range `utcnow()` can produce (where the CPython `%Y`/`%m`/... widths
are 4/2/2/2/2/2) and the randomness to the 128 bits of `uuid4`. -/
theorem claim6_authentication_variables (conn : BaseConnection) (r : Nat) (now : UtcTime)
    (hr : r < 2 ^ 128) (hy1 : 1000 ≤ now.year) (hy2 : now.year ≤ 9999)
    (hmo1 : 1 ≤ now.month) (hmo2 : now.month ≤ 12) (hd1 : 1 ≤ now.day) (hd2 : now.day ≤ 31)
    (hh : now.hour ≤ 23) (hmi : now.minute ≤ 59) (hs : now.second ≤ 59) :
    ((build_authentication_variables conn r now).1).length = 32
    ∧ ((build_authentication_variables conn r now).1).data.all isHexDigitChar = true
    ∧ ((build_authentication_variables conn r now).2.1).length = 25
    ∧ isTimestamp25 (build_authentication_variables conn r now).2.1
    ∧ (build_authentication_variables conn r now).2.2
        = b64OfString (sha1Hexdigest (strEncode ((build_authentication_variables conn r now).1
            ++ (build_authentication_variables conn r now).2.1 ++ conn.secret)))
    ∧ ((build_authentication_variables conn r now).2.2).length = 56 := by
  refine ⟨uuid4Hex_length r, ?_, strftimeWsse_length now, strftimeWsse_isTimestamp25 now,
    rfl, sha1Digest56 _⟩
  rw [List.all_eq_true]
  exact fun c hc => hexFixed_mem_isHex 32 r c hc

/-- Witness for C6: the authenticator evaluated at a concrete
randomness draw and clock reading. -/
theorem claim6_authentication_variables_witness :
    ((build_authentication_variables demoConn 7 demoTime).1).length = 32
    ∧ ((build_authentication_variables demoConn 7 demoTime).2.1).length = 25
    ∧ ((build_authentication_variables demoConn 7 demoTime).2.2).length = 56 :=
  have h := claim6_authentication_variables demoConn 7 demoTime (by norm_num)
    (by norm_num [demoTime]) (by norm_num [demoTime]) (by norm_num [demoTime])
    (by norm_num [demoTime]) (by norm_num [demoTime]) (by norm_num [demoTime])
    (by norm_num [demoTime]) (by norm_num [demoTime]) (by norm_num [demoTime])
  ⟨h.1, h.2.2.1, h.2.2.2.2.2⟩

/-- C7: `build_headers` yields the WSSE header value in exactly the
claimed shape under `X-WSSE`, a default `Content-Type` entry, and the
caller-supplied headers merged on top: on any key collision the
caller-supplied value wins (so the first two lookups are stated for
collision-free keys, and every caller-supplied binding is found
verbatim in the result). -/
theorem claim7_build_headers (conn : BaseConnection) (r : Nat) (now : UtcTime)
    (other : StrDict) (hnd : (other.map Prod.fst).Nodup) :
    ((∀ q ∈ other, q.1 ≠ "X-WSSE") →
      dictGet (build_headers conn r now (some other)) "X-WSSE"
        = some ("UsernameToken Username=\"" ++ conn.username ++ "\",PasswordDigest=\""
            ++ (build_authentication_variables conn r now).2.2 ++ "\",Nonce=\""
            ++ (build_authentication_variables conn r now).1 ++ "\",Created=\""
            ++ (build_authentication_variables conn r now).2.1 ++ "\""))
    ∧ ((∀ q ∈ other, q.1 ≠ "Content-Type") →
      dictGet (build_headers conn r now (some other)) "Content-Type"
        = some "application/json")
    ∧ (∀ q ∈ other, dictGet (build_headers conn r now (some other)) q.1 = some q.2) := by
  have hb : build_headers conn r now (some other)
      = dictMerge [("X-WSSE", wsseHeaderValue conn r now),
          ("Content-Type", "application/json")] other := by
    by_cases he : other.isEmpty
    · have h0 : other = [] := List.isEmpty_iff.mp he
      subst h0
      rfl
    · simp [build_headers, he]
      rfl
  refine ⟨?_, ?_, ?_⟩
  · intro hq
    rw [hb, dictGet_dictMerge_not_mem _ _ _ hq]
    rw [show dictGet [("X-WSSE", wsseHeaderValue conn r now),
      ("Content-Type", "application/json")] "X-WSSE" = some (wsseHeaderValue conn r now) from rfl]
    rw [wsseHeaderValue_eq]
  · intro hq
    rw [hb, dictGet_dictMerge_not_mem _ _ _ hq]
    rfl
  · intro q hq
    rw [hb]
    exact dictGet_dictMerge_mem _ _ hnd q hq

/-- Witness for C7: a caller-supplied header appears verbatim and the
default `Content-Type` survives when not overridden. -/
theorem claim7_build_headers_witness :
    dictGet (build_headers demoConn 3 demoTime (some [("X-Custom", "1")])) "Content-Type"
      = some "application/json"
    ∧ dictGet (build_headers demoConn 3 demoTime (some [("X-Custom", "1")])) "X-Custom"
      = some "1" := by
  have h := claim7_build_headers demoConn 3 demoTime [("X-Custom", "1")] (by simp)
  exact ⟨h.2.1 (by simp), h.2.2 ("X-Custom", "1") (by simp)⟩

/-- C9 (counterexample): the claim that the dispatched authentication
header is never replaced by a caller-cached value fails: a caller
passing its own `X-WSSE` entry wins the merge, so the request carries
the stale caller value, not the freshly derived one. -/
theorem claim9_counterexample :
    dictGet (build_headers demoConn 0 demoTime (some [("X-WSSE", "stale")])) "X-WSSE"
      = some "stale"
    ∧ "stale" ≠ wsseHeaderValue demoConn 0 demoTime := by
  constructor
  · rfl
  · intro hEq
    have h56 : ((build_authentication_variables demoConn 0 demoTime).2.2).length = 56 :=
      sha1Digest56 _
    have h32 : ((build_authentication_variables demoConn 0 demoTime).1).length = 32 :=
      uuid4Hex_length 0
    have h25 : ((build_authentication_variables demoConn 0 demoTime).2.1).length = 25 :=
      strftimeWsse_length demoTime
    have hlen := congrArg String.length hEq
    rw [wsseHeaderValue] at hlen
    simp only [String.length_append, h56, h32, h25] at hlen
    exact absurd hlen (by decide)

/-- C9 (amended): the headers of every dispatched request are built by a
fresh derivation: when the caller supplies no `X-WSSE` entry of its
own, the request carries exactly one `X-WSSE` header and its value is
the one derived from the own randomness draw and clock reading of this
call
(distinct draws yield distinct nonces, by injectivity of the rendering
on the 128-bit `uuid4` range); a caller-supplied `X-WSSE` entry, however,
overrides the fresh value (see the counterexample). -/
theorem claim9_fresh_auth_header (conn : BaseConnection) (r : Nat) (now : UtcTime)
    (m e : String) (h : Option StrDict) (p : PyValue)
    (hno : ∀ d, h = some d → ∀ q ∈ d, q.1 ≠ "X-WSSE") :
    ((syncBuildRequest conn r now m e h p).headers.map Prod.fst).count "X-WSSE" = 1
    ∧ dictGet (syncBuildRequest conn r now m e h p).headers "X-WSSE"
        = some (wsseHeaderValue conn r now)
    ∧ (∀ r1 r2, r1 < 2 ^ 128 → r2 < 2 ^ 128 → uuid4Hex r1 = uuid4Hex r2 → r1 = r2) := by
  have hbase_nodup : (([("X-WSSE", wsseHeaderValue conn r now),
      ("Content-Type", "application/json")] : StrDict).map Prod.fst).Nodup := by
    rw [show ([("X-WSSE", wsseHeaderValue conn r now),
      ("Content-Type", "application/json")] : StrDict).map Prod.fst
      = ["X-WSSE", "Content-Type"] from rfl]
    decide
  cases h with
  | none =>
    exact ⟨count_keys_eq_one _ "X-WSSE" (wsseHeaderValue conn r now) hbase_nodup rfl,
      rfl, fun r1 r2 h1 h2 he => uuid4Hex_inj r1 r2 h1 h2 he⟩
  | some d =>
    have hno' := hno d rfl
    have hb : build_headers conn r now (some d)
        = dictMerge [("X-WSSE", wsseHeaderValue conn r now),
            ("Content-Type", "application/json")] d := by
      by_cases he : d.isEmpty
      · have h0 : d = [] := List.isEmpty_iff.mp he
        subst h0
        rfl
      · simp [build_headers, he]
        rfl
    have hget : dictGet (build_headers conn r now (some d)) "X-WSSE"
        = some (wsseHeaderValue conn r now) := by
      rw [hb, dictGet_dictMerge_not_mem _ _ _ hno']
      rfl
    have hnodup : ((build_headers conn r now (some d)).map Prod.fst).Nodup := by
      rw [hb]
      exact keysNodup_dictMerge _ _ hbase_nodup
    exact ⟨count_keys_eq_one _ "X-WSSE" (wsseHeaderValue conn r now) hnodup hget,
      hget, fun r1 r2 h1 h2 he => uuid4Hex_inj r1 r2 h1 h2 he⟩

/-- Witness for C9 (amended): a concrete call with no caller headers
carries the header value freshly derived from the inputs of this
call. -/
theorem claim9_fresh_auth_header_witness :
    dictGet (syncBuildRequest demoConn 9 demoTime "GET" "api/v2/settings" Option.none
      PyValue.none).headers "X-WSSE" = some (wsseHeaderValue demoConn 9 demoTime) :=
  (claim9_fresh_auth_header demoConn 9 demoTime "GET" "api/v2/settings" Option.none
    PyValue.none (fun _ hd => nomatch hd)).2.1
